import Mathlib

/-!
Shallow embedding of `chatter/chatterDB.py`: the SQLite tables are lists of
row records, and each entity method becomes a Lean function on an explicit
`Store`.  Methods that catch every exception, roll back and `print` the error
(returning `None` to the caller) are embedded as `Store × Option PyErr`,
where the `Option PyErr` is the *printed* error — the Python caller always
sees a normal return.  Methods that re-raise are embedded with `Except`
visible in the result.
-/

/-- Row of the `User` table (chatterDB.py, schema lines 39-45). -/
structure UserRow where
  userid : Nat
  username : String
  password : String
  last_login_ts : Nat
  admin : Bool
  active : Bool
deriving DecidableEq

/-- Row of the `Chatroom` table (schema lines 56-60). -/
structure ChatroomRow where
  chatroomid : Nat
  name : String
  description : String
deriving DecidableEq

/-- Row of the `ChatroomMember` join table (schema lines 66-72): the
`owner` column is 0/1, modelled as `Bool`. -/
structure MemberRow where
  chatroomid : Nat
  userid : Nat
  owner : Bool
deriving DecidableEq

/-- Row of the `Message` table (schema lines 78-86). -/
structure MessageRow where
  messageid : Nat
  content : String
  chatroomid : Nat
  senderid : Nat
  timestamp : Nat
deriving DecidableEq

/-- Row of the `Attachment` table (schema lines 92-99). -/
structure AttachmentRow where
  attachmentid : Nat
  messageid : Nat
  filepath : String
deriving DecidableEq

/-- The database state.  Each table is the list of its rows in rowid order
(the order a full scan returns them, which for these tables — whose primary
keys are AUTOINCREMENT aliases of the rowid — is insertion order).
`nextUserId` models the `sqlite_sequence` counter for the `User` table that
`INSERT ... VALUES (NULL, ...)` consumes. -/
structure Store where
  users : List UserRow
  chatrooms : List ChatroomRow
  members : List MemberRow
  messages : List MessageRow
  attachments : List AttachmentRow
  nextUserId : Nat
deriving DecidableEq

/-- The Python exception classes raised by chatterDB.py, plus `typeError`
(Python's built-in `TypeError`) and `storageFault` (a failure injected by the
storage engine, used to model the behaviour of multi-statement operations
when a statement fails).  Where one exception class is raised at two sites
with different message texts, the two sites get distinct constructors. -/
inductive PyErr where
  | userNotFound
  | userPasswordIncorrectShort
  | userPasswordIncorrectMismatch
  | userNotAuthorised
  | userDeletionError
  | userCreationErrorShortPassword
  | userCreationErrorDuplicate
  | chatroomNotFound
  | messageNotFound
  | invalidMessageData
  | attachmentNotFound
  | typeError
  | storageFault
deriving DecidableEq

/-- `User.delete(self, authorised_user)` (chatterDB.py lines 212-268).
`userid` is `self.__userid`; `actingAdmin` is `authorised_user.admin`.
The entire body is wrapped in `try/except Exception: rollback; print(e)`,
so the method always returns normally: the second component is the error
that was printed (and swallowed), `none` on success.
Control flow of the `try` block:
  * not admin: raise `UserNotAuthorised` (line 264);
  * `chatrooms_owned` = rows of ChatroomMember with this userid and owner=1
    (line 246); for each, query for another owner row of that chatroom
    (line 250); if any has none, raise `UserDeletionError` (line 254) —
    this happens before any mutation;
  * otherwise `UPDATE Message SET senderid=0 WHERE senderid=?` (line 257)
    then `DELETE FROM User WHERE userid=?` (line 260) and commit.
No statement touches the `ChatroomMember` table. -/
def User_delete (s : Store) (userid : Nat) (actingAdmin : Bool) :
    Store × Option PyErr :=
  if actingAdmin then
    let chatrooms_owned := s.members.filter fun r => r.userid == userid && r.owner
    if chatrooms_owned.any (fun row =>
        (s.members.filter fun r =>
          r.chatroomid == row.chatroomid && r.owner && r.userid != userid).isEmpty) then
      (s, some PyErr.userDeletionError)
    else
      let s1 := { s with messages := s.messages.map (fun (m : MessageRow) =>
        if m.senderid == userid then { m with senderid := 0 } else m) }
      let s2 := { s1 with users := s1.users.filter fun u => u.userid != userid }
      (s2, none)
  else
    (s, some PyErr.userNotAuthorised)

/-- A sequence of calls to `User.delete`, each given a target userid and the
`admin` flag of the acting user. -/
def delete_seq (s : Store) (ops : List (Nat × Bool)) : Store :=
  ops.foldl (fun st op => (User_delete st op.1 op.2).1) s

/-- Chatroom `cid` has at least one membership row. -/
def hasMemberRow (s : Store) (cid : Nat) : Prop :=
  ∃ r ∈ s.members, r.chatroomid = cid

/-- Chatroom `cid` has at least one membership row with the owner flag set. -/
def hasOwnerRow (s : Store) (cid : Nat) : Prop :=
  ∃ r ∈ s.members, r.chatroomid = cid ∧ r.owner = true

/-- A store in the shape of the tests' fixture: `TestUser1` and `TestUser2`
are co-owners of `TestRoom1`, `TestAdmin` is an admin, each user has
authored one message. -/
def coOwnStore : Store :=
  { users := [⟨0, "DeletedUser", "", 0, false, false⟩,
              ⟨1, "TestUser1", "password1", 0, false, true⟩,
              ⟨2, "TestUser2", "password2", 0, false, true⟩,
              ⟨6, "TestAdmin", "adminpass", 0, true, true⟩],
    chatrooms := [⟨1, "TestRoom1", "A test chatroom"⟩],
    members := [⟨1, 1, true⟩, ⟨1, 2, true⟩],
    messages := [⟨1, "first message", 1, 1, 100⟩,
                 ⟨2, "second message", 1, 2, 110⟩],
    attachments := [],
    nextUserId := 7 }

/-- A store in which `TestUser1` is the sole owner of `TestRoom1`. -/
def soleOwnerStore : Store :=
  { users := [⟨0, "DeletedUser", "", 0, false, false⟩,
              ⟨1, "TestUser1", "password1", 0, false, true⟩,
              ⟨6, "TestAdmin", "adminpass", 0, true, true⟩],
    chatrooms := [⟨1, "TestRoom1", "A test chatroom"⟩],
    members := [⟨1, 1, true⟩],
    messages := [⟨1, "first message", 1, 1, 100⟩],
    attachments := [],
    nextUserId := 7 }

/-- Python 3 evaluation of `new_pwd < 8` where `new_pwd` is a `str`:
comparing a string with an integer raises `TypeError`.  This models the
expression inside `len(new_pwd < 8)` at chatterDB.py line 276. -/
def pyStrLtInt (_pw : String) (_n : Nat) : Except PyErr Bool :=
  Except.error PyErr.typeError

/-- The `try` block of `User.update_password(self, old_pwd, new_pwd)`
(chatterDB.py lines 274-289).  Its first statement is
`if len(new_pwd < 8):`, whose inner comparison raises `TypeError` in
Python 3 before anything else runs; the remainder of the block is
transcribed faithfully but is unreachable. -/
def update_password_body (s : Store) (userid : Nat) (old_pwd new_pwd : String) :
    Except PyErr Store := do
  let tooShort ← pyStrLtInt new_pwd 8
  if tooShort then
    Except.error PyErr.userPasswordIncorrectShort
  else
    match s.users.find? (fun u => u.userid == userid && u.password == old_pwd) with
    | some _ =>
        Except.ok { s with users := s.users.map (fun (u : UserRow) =>
          if u.userid == userid then { u with password := new_pwd } else u) }
    | none => Except.error PyErr.userPasswordIncorrectMismatch

/-- `User.update_password` (chatterDB.py lines 270-293): the `try` block
above wrapped in `except Exception: rollback; print(e)`, so the caller
always gets a normal return; the second component is the printed error. -/
def update_password (s : Store) (userid : Nat) (old_pwd new_pwd : String) :
    Store × Option PyErr :=
  match update_password_body s userid old_pwd new_pwd with
  | Except.ok s' => (s', none)
  | Except.error e => (s, some e)

/-- `User.create(username, password, db)` (chatterDB.py lines 326-346).
Raises `UserCreationError("Password must be at least 8 characters...")` when
`len(password) < 8`; the `INSERT INTO User VALUES (NULL, ?, ?, 0, 0, 1)`
hits the `username UNIQUE` constraint when the username exists, raising
`sqlite3.IntegrityError`, which the handler re-raises as
`UserCreationError("User with username ... already exists.")`.  Both errors
propagate to the caller (the `except` clause catches only `IntegrityError`).
On success the new row gets the next AUTOINCREMENT id, `last_login_ts = 0`,
`admin = 0`, `active = 1`.  The first component is the committed store
(unchanged on failure, after rollback). -/
def User_create (s : Store) (username password : String) :
    Store × Except PyErr Nat :=
  if password.length < 8 then
    (s, Except.error PyErr.userCreationErrorShortPassword)
  else if s.users.any (fun u => u.username == username) then
    (s, Except.error PyErr.userCreationErrorDuplicate)
  else
    ({ s with users := s.users ++ [⟨s.nextUserId, username, password, 0, false, true⟩],
              nextUserId := s.nextUserId + 1 },
     Except.ok s.nextUserId)

/-- A store for the authentication scenarios: `alice` is active, `bob` is
inactive, there is no `carol`. -/
def storeAuth : Store :=
  { users := [⟨0, "DeletedUser", "", 0, false, false⟩,
              ⟨1, "alice", "password123", 0, false, true⟩,
              ⟨2, "bob", "bobsecret99", 0, false, false⟩],
    chatrooms := [],
    members := [],
    messages := [],
    attachments := [],
    nextUserId := 3 }

/-- The row predicate of the `SELECT` in `User.login` (chatterDB.py line
361): `username=? and password=? and active=1`. -/
def loginMatches (un pw : String) (u : UserRow) : Bool :=
  u.username == un && u.password == pw && u.active

/-- `User.login(username, password, db)` (chatterDB.py lines 349-370).
On a matching active row, builds the `User` object and calls
`update_login_time`, which sets `last_login_ts` to the current time and
persists it; the userid of the logged-in user is returned.  On no match it
raises `UserNotAuthorised`; the surrounding `except` clause re-raises
(`raise e`), so unlike `User.delete` the error DOES reach the caller. -/
def User_login (s : Store) (un pw : String) (now : Nat) :
    Store × Except PyErr Nat :=
  match s.users.find? (loginMatches un pw) with
  | some u =>
      ({ s with users := s.users.map (fun (v : UserRow) =>
          if v.userid == u.userid then { v with last_login_ts := now } else v) },
       Except.ok u.userid)
  | none => (s, Except.error PyErr.userNotAuthorised)

/-- `Message.get_messages_for_chatroom(chatroomid, db, since_message_id=0)`
(chatterDB.py lines 583-595): `SELECT messageid FROM Message WHERE
chatroomid=? AND messageid > ?` — no `ORDER BY`; the rows come back in
rowid (= messageid) scan order, i.e. the order of the `messages` list —
then each id is loaded as a full `Message` row. -/
def get_messages_for_chatroom (s : Store) (chatroomid : Nat)
    (since_message_id : Nat) : List MessageRow :=
  s.messages.filter
    (fun m => m.chatroomid == chatroomid && decide (since_message_id < m.messageid))

/-- The `Chatroom.messages` property (chatterDB.py lines 429-431):
`get_messages_for_chatroom` with the default cursor 0. -/
def Chatroom_messages (s : Store) (cid : Nat) : List MessageRow :=
  get_messages_for_chatroom s cid 0

/-- `Chatroom.get_messages_since(messageid)` (chatterDB.py lines 449-450). -/
def Chatroom_get_messages_since (s : Store) (cid : Nat) (messageid : Nat) :
    List MessageRow :=
  get_messages_for_chatroom s cid messageid

/-- `Attachment.get_attachments_for_message` (chatterDB.py lines 662-674),
restricted to the selected ids: `SELECT attachmentid FROM Attachment WHERE
messageid=?` in scan order.  `Message.__init__` stores the result in
`self.__attachments`, which is the list `Message.delete` iterates over. -/
def Attachment_get_ids_for_message (s : Store) (messageid : Nat) : List Nat :=
  (s.attachments.filter (fun a => a.messageid == messageid)).map
    (fun a => a.attachmentid)

/-- The single `DELETE FROM Attachment WHERE attachmentid=?` statement of
`Attachment.delete` (chatterDB.py line 638). -/
def delete_attachment_row (s : Store) (aid : Nat) : Store :=
  { s with attachments := s.attachments.filter (fun a => a.attachmentid != aid) }

/-- The single `DELETE FROM Message WHERE messageid=?` statement of
`Message.delete` (chatterDB.py line 529). -/
def delete_message_row (s : Store) (mid : Nat) : Store :=
  { s with messages := s.messages.filter (fun m => m.messageid != mid) }

/-- The attachment loop of `Message.delete` (chatterDB.py lines 525-526)
with storage-fault injection: statement number `idx` (counting one per
attachment) fails when `failAt = some idx`.  Each iteration runs
`Attachment.delete`, which executes its `DELETE` and then `self.db.commit()`
— so the store after each successful iteration is the *committed* state.
On a fault, `Attachment.delete` rolls back (nothing uncommitted exists) and
re-raises. -/
def Message_delete_attach_loop (s : Store) (failAt : Option Nat) (idx : Nat) :
    List Nat → Store × Option PyErr
  | [] => (s, none)
  | aid :: rest =>
      if failAt == some idx then
        (s, some PyErr.storageFault)
      else
        Message_delete_attach_loop (delete_attachment_row s aid) failAt (idx + 1) rest

/-- `Message.delete()` (chatterDB.py lines 519-535) under storage-fault
injection, for a message whose attachment ids are those currently in the
store.  After the attachment loop, the `DELETE FROM Message` statement is
statement number `aids.length`; if it faults, the `except` clause calls
`self.db.rollback()` — which can only undo work since the *last commit*,
and every attachment deletion was already committed by `Attachment.delete`
— and re-raises (`raise e`). -/
def Message_delete_run (s : Store) (mid : Nat) (failAt : Option Nat) :
    Store × Except PyErr Unit :=
  let aids := Attachment_get_ids_for_message s mid
  match Message_delete_attach_loop s failAt 0 aids with
  | (s1, some e) => (s1, Except.error e)
  | (s1, none) =>
      if failAt == some aids.length then
        (s1, Except.error PyErr.storageFault)
      else
        (delete_message_row s1 mid, Except.ok ())

/-- `Attachment.__init__` / `Attachment.retrieve` (chatterDB.py lines
602-616, 658-660): loads `(messageid, filepath)` or raises
`AttachmentNotFound`. -/
def Attachment_load (s : Store) (attachmentid : Nat) :
    Except PyErr (Nat × String) :=
  match s.attachments.find? (fun a => a.attachmentid == attachmentid) with
  | some a => Except.ok (a.messageid, a.filepath)
  | none => Except.error PyErr.attachmentNotFound

/-- A store in which message 1 has two attachments and message 2 has none. -/
def attachStore : Store :=
  { users := [⟨0, "DeletedUser", "", 0, false, false⟩,
              ⟨1, "TestUser1", "password1", 0, false, true⟩],
    chatrooms := [⟨1, "TestRoom1", "A test chatroom"⟩],
    members := [⟨1, 1, true⟩],
    messages := [⟨1, "message with attachments", 1, 1, 100⟩,
                 ⟨2, "plain message", 1, 1, 110⟩],
    attachments := [⟨1, 1, "donald.png"⟩, ⟨2, 1, "gary.png"⟩],
    nextUserId := 2 }

/-- The in-memory `User` object built by `User.__init__` (chatterDB.py
lines 156-172): the row's fields except the password. -/
structure UserObj where
  userid : Nat
  username : String
  last_login_ts : Nat
  admin : Bool
  active : Bool
deriving DecidableEq

/-- `User.__init__` / `User.retrieve` (chatterDB.py lines 156-189): loads
the row with this userid or raises `UserNotFound`. -/
def User_load (s : Store) (userid : Nat) : Except PyErr UserObj :=
  match s.users.find? (fun u => u.userid == userid) with
  | some u => Except.ok ⟨userid, u.username, u.last_login_ts, u.admin, u.active⟩
  | none => Except.error PyErr.userNotFound

/-- The loops of `Chatroom.__update_owners` / `Chatroom.__update_members`
(chatterDB.py lines 405-419): construct a full `User` object for each
membership row in order; the first failing construction propagates its
exception. -/
def load_member_users (s : Store) : List MemberRow → Except PyErr (List UserObj)
  | [] => Except.ok []
  | r :: rest =>
      match User_load s r.userid with
      | Except.error e => Except.error e
      | Except.ok u =>
          match load_member_users s rest with
          | Except.error e => Except.error e
          | Except.ok us => Except.ok (u :: us)

/-- The in-memory `Chatroom` object built by `Chatroom.__init__`. -/
structure ChatroomObj where
  chatroomid : Nat
  name : String
  description : String
  owners : List UserObj
  members : List UserObj
deriving DecidableEq

/-- `Chatroom.__init__` (chatterDB.py lines 383-403): loads the chatroom
row (else `ChatroomNotFound`), then eagerly hydrates the owner list
(rows with `owner=1`) and the member list (rows with `owner=0`), each as a
full `User` object. -/
def Chatroom_load (s : Store) (chatroomid : Nat) : Except PyErr ChatroomObj :=
  match s.chatrooms.find? (fun cr => cr.chatroomid == chatroomid) with
  | none => Except.error PyErr.chatroomNotFound
  | some cr =>
      match load_member_users s
          (s.members.filter (fun r => r.chatroomid == chatroomid && r.owner)) with
      | Except.error e => Except.error e
      | Except.ok owners =>
          match load_member_users s
              (s.members.filter (fun r => r.chatroomid == chatroomid && !r.owner)) with
          | Except.error e => Except.error e
          | Except.ok mems =>
              Except.ok ⟨chatroomid, cr.name, cr.description, owners, mems⟩

/-- A store whose chatroom 1 exists but has a membership row for userid 7,
which matches no `User` row. -/
def danglingStore : Store :=
  { users := [⟨0, "DeletedUser", "", 0, false, false⟩],
    chatrooms := [⟨1, "TestRoom1", "A test chatroom"⟩],
    members := [⟨1, 7, false⟩],
    messages := [],
    attachments := [],
    nextUserId := 1 }

lemma User_delete_members_eq (s : Store) (userid : Nat) (actingAdmin : Bool) :
    (User_delete s userid actingAdmin).1.members = s.members := by
  unfold User_delete
  by_cases h : actingAdmin
  · simp only [h, if_true]
    by_cases h2 : (s.members.filter fun r => r.userid == userid && r.owner).any
        (fun row => (s.members.filter fun r =>
          r.chatroomid == row.chatroomid && r.owner && r.userid != userid).isEmpty)
    · simp [h2]
    · simp [h2]
  · simp [h]

lemma delete_seq_members_eq (s : Store) (ops : List (Nat × Bool)) :
    (delete_seq s ops).members = s.members := by
  induction ops generalizing s with
  | nil => rfl
  | cons op rest ih =>
      show (delete_seq (User_delete s op.1 op.2).1 rest).members = s.members
      rw [ih, User_delete_members_eq]

/-- Claim C1: deleting `TestUser1` (a co-owner, not sole owner, of every
chatroom they own) by an admin returns normally, reassigns their message's
`senderid` to 0 and deletes the user row — but the `ChatroomMember` rows of
the deleted user are NOT deleted (row `⟨1, 1, true⟩` survives), contrary to
the claim: the method contains no statement on the `ChatroomMember` table,
so the membership rows are left referencing a userid that no longer exists
in `User`, violating the schema's declared foreign key.  As a consequence
(last conjunct), loading `TestRoom1` afterwards fails with `UserNotFound`,
so the chatroom becomes inaccessible. -/
theorem c1_delete_leaves_membership_rows :
    User_delete coOwnStore 1 true =
      ({ users := [⟨0, "DeletedUser", "", 0, false, false⟩,
                   ⟨2, "TestUser2", "password2", 0, false, true⟩,
                   ⟨6, "TestAdmin", "adminpass", 0, true, true⟩],
         chatrooms := [⟨1, "TestRoom1", "A test chatroom"⟩],
         members := [⟨1, 1, true⟩, ⟨1, 2, true⟩],
         messages := [⟨1, "first message", 1, 0, 100⟩,
                      ⟨2, "second message", 1, 2, 110⟩],
         attachments := [],
         nextUserId := 7 }, none)
    ∧ Chatroom_load (User_delete coOwnStore 1 true).1 1 =
      Except.error PyErr.userNotFound :=
  ⟨rfl, rfl⟩

/-- Claim C2: deleting `TestUser1`, the sole owner of `TestRoom1`, with an
admin acting user modifies no row — but the `UserDeletionError` raised by
the sole-ownership check is caught by the method's own handler, printed and
swallowed: the call returns normally (second component is the *printed*
error), so the failure is never reported to the caller as the claim (and
the method's docstring, which says an exception will be raised) requires. -/
theorem c2_sole_owner_error_swallowed :
    User_delete soleOwnerStore 1 true = (soleOwnerStore, some PyErr.userDeletionError) := rfl

/-- Claim C4: deleting a user with a non-admin acting user performs no
mutation — but the `UserNotAuthorised` exception raised at line 264 is
caught by the same method's `except` clause, printed and swallowed: the
call returns normally, while the claim (and the docstring, which says the
process fails "raising a UserNotAuthorised exception") requires the failure
to reach the caller. -/
theorem c4_not_authorised_error_swallowed :
    User_delete coOwnStore 1 false = (coOwnStore, some PyErr.userNotAuthorised) := rfl

/-- Claim C8: changing `TestUser1`'s password with the *correct* old
password and an 11-character new password leaves the stored row untouched
and swallows a `TypeError`: line 276 computes `len(new_pwd < 8)` instead of
`len(new_pwd) < 8`, so every call — including the ones the claim says must
succeed — raises `TypeError`, which the `except` clause prints and
swallows.  No password change can ever happen. -/
theorem c8_update_password_always_type_error :
    update_password coOwnStore 1 "password1" "newpassword" =
      (coOwnStore, some PyErr.typeError) := rfl

/-- Claim C3: in any state where every chatroom with a membership row has an
owner row, after any sequence of user-deletion operations every chatroom that
still has a membership row still has an owner row.  (In this code the
sequence of deletions never touches the `ChatroomMember` table at all, so
the invariant is preserved.) -/
theorem c3_owner_invariant_preserved (s : Store)
    (hinv : ∀ cid, hasMemberRow s cid → hasOwnerRow s cid)
    (ops : List (Nat × Bool)) :
    ∀ cid, hasMemberRow (delete_seq s ops) cid → hasOwnerRow (delete_seq s ops) cid := by
  intro cid hmem
  have hm := delete_seq_members_eq s ops
  unfold hasMemberRow at hmem
  unfold hasOwnerRow
  rw [hm] at hmem ⊢
  exact hinv cid hmem

/-- Witness for C3: after deleting user 1 (admin acting user) and then
attempting to delete user 2 (non-admin acting user) in `coOwnStore`,
chatroom 1 still has an owner membership row. -/
theorem c3_owner_invariant_witness :
    hasOwnerRow (delete_seq coOwnStore [(1, true), (2, false)]) 1 := by
  refine c3_owner_invariant_preserved coOwnStore ?_ [(1, true), (2, false)] 1 ?_
  · intro cid hm
    obtain ⟨r, hr, hcid⟩ := hm
    have hr1 : r.chatroomid = 1 := by
      have hr' : r ∈ [MemberRow.mk 1 1 true, MemberRow.mk 1 2 true] := hr
      rcases List.mem_cons.mp hr' with h | h
      · rw [h]
      · rw [List.mem_singleton.mp h]
    exact ⟨⟨1, 1, true⟩, by simp [coOwnStore], by rw [← hcid, hr1], rfl⟩
  · refine ⟨⟨1, 1, true⟩, ?_, rfl⟩
    rw [delete_seq_members_eq]
    simp [coOwnStore]

/-- Claim C9: `create` with a password shorter than 8 fails with the
weak-credential error and inserts no row; `create` with an existing username
fails with the duplicate-username error and inserts no row; on success the
new row has `admin = false`, `active = true` and `last_login_ts = 0` (the
epoch), and no other table changes. -/
theorem c9_user_create_spec (s : Store) (un pw : String) :
    (pw.length < 8 →
      User_create s un pw = (s, Except.error PyErr.userCreationErrorShortPassword))
    ∧ (¬ pw.length < 8 → (∃ u ∈ s.users, u.username = un) →
      User_create s un pw = (s, Except.error PyErr.userCreationErrorDuplicate))
    ∧ (∀ s' uid, User_create s un pw = (s', Except.ok uid) →
        uid = s.nextUserId
        ∧ s'.users = s.users ++ [⟨uid, un, pw, 0, false, true⟩]
        ∧ s'.chatrooms = s.chatrooms ∧ s'.members = s.members
        ∧ s'.messages = s.messages ∧ s'.attachments = s.attachments) := by
  refine ⟨?_, ?_, ?_⟩
  · intro h
    unfold User_create
    rw [if_pos h]
  · intro h hdup
    have hany : s.users.any (fun u => u.username == un) = true := by
      obtain ⟨u, hu, hname⟩ := hdup
      exact List.any_eq_true.mpr ⟨u, hu, by simp [hname]⟩
    unfold User_create
    rw [if_neg h, if_pos hany]
  · intro s' uid h
    unfold User_create at h
    by_cases h1 : pw.length < 8
    · rw [if_pos h1] at h
      simp at h
    · rw [if_neg h1] at h
      by_cases h2 : s.users.any (fun u => u.username == un)
      · rw [if_pos h2] at h
        simp at h
      · rw [if_neg h2] at h
        rw [Prod.mk.injEq] at h
        obtain ⟨hs, hok⟩ := h
        rw [Except.ok.injEq] at hok
        subst hok
        subst hs
        exact ⟨rfl, rfl, rfl, rfl, rfl, rfl⟩

/-- Witness for C9 at `storeAuth`: a 5-character password is rejected with
no insert, a duplicate of `alice` is rejected with no insert, and creating
`dave` appends exactly one row with `admin = false`, `active = true`,
`last_login_ts = 0`. -/
theorem c9_user_create_witness :
    User_create storeAuth "dave" "short" =
      (storeAuth, Except.error PyErr.userCreationErrorShortPassword)
    ∧ User_create storeAuth "alice" "longpassword" =
      (storeAuth, Except.error PyErr.userCreationErrorDuplicate)
    ∧ (User_create storeAuth "dave" "longpassword").1.users =
      storeAuth.users ++ [⟨storeAuth.nextUserId, "dave", "longpassword", 0, false, true⟩] := by
  refine ⟨?_, ?_, ?_⟩
  · exact (c9_user_create_spec storeAuth "dave" "short").1 (by decide)
  · exact (c9_user_create_spec storeAuth "alice" "longpassword").2.1 (by decide)
      ⟨⟨1, "alice", "password123", 0, false, true⟩, by simp [storeAuth], rfl⟩
  · exact ((c9_user_create_spec storeAuth "dave" "longpassword").2.2 _ _ rfl).2.1

lemma loginMatches_eq_true {un pw : String} {u : UserRow} :
    loginMatches un pw u = true ↔
      u.username = un ∧ u.password = pw ∧ u.active = true := by
  simp [loginMatches, Bool.and_eq_true, and_assoc]

lemma User_login_no_match (s : Store) (un pw : String) (now : Nat)
    (h : ∀ u ∈ s.users, loginMatches un pw u = false) :
    User_login s un pw now = (s, Except.error PyErr.userNotAuthorised) := by
  unfold User_login
  rw [List.find?_eq_none.mpr (fun u hu => by rw [h u hu]; exact Bool.false_ne_true)]

/-- Claim C7: `User.login` fails with the one `UserNotAuthorised` error in
all three mismatch cases — correct username but wrong password, unknown
username, and correct credentials on an inactive account — so the caller
cannot tell the cases apart from the failure kind; and a user is returned
only when an active row matches the exact username/password pair. -/
theorem c7_authenticate_uniform_failure (s : Store) (un pw : String) (now : Nat) :
    ((∃ u ∈ s.users, u.username = un) ∧
        (∀ u ∈ s.users, u.username = un → u.password ≠ pw) →
      User_login s un pw now = (s, Except.error PyErr.userNotAuthorised))
    ∧ ((∀ u ∈ s.users, u.username ≠ un) →
      User_login s un pw now = (s, Except.error PyErr.userNotAuthorised))
    ∧ ((∃ u ∈ s.users, u.username = un ∧ u.password = pw ∧ u.active = false) ∧
        (∀ u ∈ s.users, u.username = un → u.active = false) →
      User_login s un pw now = (s, Except.error PyErr.userNotAuthorised))
    ∧ (∀ s' uid, User_login s un pw now = (s', Except.ok uid) →
        ∃ u ∈ s.users, u.userid = uid ∧ u.username = un ∧ u.password = pw
          ∧ u.active = true) := by
  refine ⟨?_, ?_, ?_, ?_⟩
  · rintro ⟨-, hno⟩
    refine User_login_no_match s un pw now (fun u hu => ?_)
    cases hb : loginMatches un pw u with
    | false => rfl
    | true =>
        obtain ⟨h1, h2, -⟩ := loginMatches_eq_true.mp hb
        exact absurd h2 (hno u hu h1)
  · intro hno
    refine User_login_no_match s un pw now (fun u hu => ?_)
    cases hb : loginMatches un pw u with
    | false => rfl
    | true =>
        obtain ⟨h1, -, -⟩ := loginMatches_eq_true.mp hb
        exact absurd h1 (hno u hu)
  · rintro ⟨-, hina⟩
    refine User_login_no_match s un pw now (fun u hu => ?_)
    cases hb : loginMatches un pw u with
    | false => rfl
    | true =>
        obtain ⟨h1, -, h3⟩ := loginMatches_eq_true.mp hb
        rw [hina u hu h1] at h3
        cases h3
  · intro s' uid h
    unfold User_login at h
    cases hf : s.users.find? (loginMatches un pw) with
    | none => rw [hf] at h; simp at h
    | some u =>
        rw [hf] at h
        rw [Prod.mk.injEq] at h
        obtain ⟨-, hok⟩ := h
        rw [Except.ok.injEq] at hok
        obtain ⟨h1, h2, h3⟩ := loginMatches_eq_true.mp (List.find?_some hf)
        exact ⟨u, List.mem_of_find?_eq_some hf, hok, h1, h2, h3⟩

/-- Witness for C7 at `storeAuth`: wrong password for `alice`, unknown
username `carol`, and correct credentials for the inactive `bob` all return
the identical `UserNotAuthorised` failure. -/
theorem c7_authenticate_witness :
    User_login storeAuth "alice" "wrongpass" 500 =
      (storeAuth, Except.error PyErr.userNotAuthorised)
    ∧ User_login storeAuth "carol" "password123" 500 =
      (storeAuth, Except.error PyErr.userNotAuthorised)
    ∧ User_login storeAuth "bob" "bobsecret99" 500 =
      (storeAuth, Except.error PyErr.userNotAuthorised) := by
  refine ⟨?_, ?_, ?_⟩
  · exact (c7_authenticate_uniform_failure storeAuth "alice" "wrongpass" 500).1
      (by decide)
  · exact (c7_authenticate_uniform_failure storeAuth "carol" "password123" 500).2.1
      (by decide)
  · exact (c7_authenticate_uniform_failure storeAuth "bob" "bobsecret99" 500).2.2.1
      (by decide)

/-- Claim C6: on a store whose `Message` table is in ascending-id order
(which every table built through this module's inserts is, since
`messageid` is an AUTOINCREMENT rowid alias) and whose ids are positive,
`messagesSince(cursor)` returns exactly the chatroom's messages with
`id > cursor`, in ascending id order; it is idempotent on an unchanged
store; and `messages()` returns all messages of the chatroom in the same
ordering. -/
theorem c6_messages_since_spec (s : Store) (cid cur : Nat)
    (hsorted : s.messages.Pairwise (fun a b => a.messageid < b.messageid))
    (hpos : ∀ m ∈ s.messages, 0 < m.messageid) :
    (∀ m, m ∈ Chatroom_get_messages_since s cid cur ↔
        m ∈ s.messages ∧ m.chatroomid = cid ∧ cur < m.messageid)
    ∧ (Chatroom_get_messages_since s cid cur).Pairwise
        (fun a b => a.messageid < b.messageid)
    ∧ Chatroom_get_messages_since s cid cur = Chatroom_get_messages_since s cid cur
    ∧ (∀ m, m ∈ Chatroom_messages s cid ↔ m ∈ s.messages ∧ m.chatroomid = cid) := by
  refine ⟨?_, ?_, rfl, ?_⟩
  · intro m
    simp [Chatroom_get_messages_since, get_messages_for_chatroom,
      List.mem_filter, and_assoc]
  · exact hsorted.sublist (List.filter_sublist _)
  · intro m
    constructor
    · intro hm
      simp [Chatroom_messages, get_messages_for_chatroom, List.mem_filter] at hm
      exact ⟨hm.1, hm.2.1⟩
    · rintro ⟨hm, hcid⟩
      simp [Chatroom_messages, get_messages_for_chatroom, List.mem_filter]
      exact ⟨hm, hcid, hpos m hm⟩

/-- Witness for C6 at `coOwnStore`: with cursor 1 the row with id 2 is
returned for chatroom 1, and the result is in ascending id order. -/
theorem c6_messages_since_witness :
    MessageRow.mk 2 "second message" 1 2 110 ∈ Chatroom_get_messages_since coOwnStore 1 1
    ∧ (Chatroom_get_messages_since coOwnStore 1 1).Pairwise
        (fun a b => a.messageid < b.messageid) := by
  constructor
  · exact ((c6_messages_since_spec coOwnStore 1 1 (by decide) (by decide)).1 _).mpr
      (by decide)
  · exact (c6_messages_since_spec coOwnStore 1 1 (by decide) (by decide)).2.1

/-- Claim C5: deleting message 1 (two attachments) is NOT atomic.  If the
final `DELETE FROM Message` statement fails (statement index 2), the two
attachment deletions have already been committed by `Attachment.delete`'s
own `commit()` calls, so the rollback in `Message.delete`'s handler cannot
restore them: the run ends with both attachment rows gone and the message
row still present — a partial cascade, contrary to the claim that any
failure leaves both message and attachments intact.  The fault-free run
does delete the message and its attachments, and loading a removed
attachment id afterwards fails with `AttachmentNotFound`. -/
theorem c5_message_delete_partial_cascade :
    Message_delete_run attachStore 1 (some 2) =
      ({ attachStore with attachments := [] }, Except.error PyErr.storageFault)
    ∧ Message_delete_run attachStore 1 none =
      ({ attachStore with messages := [⟨2, "plain message", 1, 1, 110⟩],
                          attachments := [] }, Except.ok ())
    ∧ Attachment_load (Message_delete_run attachStore 1 none).1 1 =
      Except.error PyErr.attachmentNotFound :=
  ⟨rfl, rfl, rfl⟩

lemma User_load_error_eq {s : Store} {uid : Nat} {e : PyErr}
    (h : User_load s uid = Except.error e) : e = PyErr.userNotFound := by
  unfold User_load at h
  cases hf : s.users.find? (fun u => u.userid == uid) with
  | none => rw [hf] at h; exact (Except.error.inj h).symm
  | some u => rw [hf] at h; simp at h

lemma load_member_users_error_eq {s : Store} :
    ∀ {rows : List MemberRow} {e : PyErr},
      load_member_users s rows = Except.error e → e = PyErr.userNotFound := by
  intro rows
  induction rows with
  | nil => intro e h; simp [load_member_users] at h
  | cons r rest ih =>
      intro e h
      unfold load_member_users at h
      cases h1 : User_load s r.userid with
      | error e1 =>
          rw [h1] at h
          rw [← Except.error.inj h]
          exact User_load_error_eq h1
      | ok u =>
          rw [h1] at h
          cases h2 : load_member_users s rest with
          | error e2 =>
              rw [h2] at h
              rw [← Except.error.inj h]
              exact ih h2
          | ok us => rw [h2] at h; simp at h

lemma load_member_users_ok_all {s : Store} :
    ∀ {rows : List MemberRow} {us : List UserObj},
      load_member_users s rows = Except.ok us →
      ∀ r ∈ rows, ∃ u, User_load s r.userid = Except.ok u := by
  intro rows
  induction rows with
  | nil => intro us _ r hr; cases hr
  | cons q rest ih =>
      intro us h r hr
      unfold load_member_users at h
      cases h1 : User_load s q.userid with
      | error e1 => rw [h1] at h; simp at h
      | ok u =>
          rw [h1] at h
          cases h2 : load_member_users s rest with
          | error e2 => rw [h2] at h; simp at h
          | ok us2 =>
              rcases List.mem_cons.mp hr with hq | hrest
              · exact ⟨u, hq ▸ h1⟩
              · exact ih h2 r hrest

lemma load_member_users_fails {s : Store} {rows : List MemberRow}
    {r : MemberRow} (hr : r ∈ rows)
    (hfail : User_load s r.userid = Except.error PyErr.userNotFound) :
    load_member_users s rows = Except.error PyErr.userNotFound := by
  cases hres : load_member_users s rows with
  | error e => rw [load_member_users_error_eq hres]
  | ok us =>
      obtain ⟨u, hu⟩ := load_member_users_ok_all hres r hr
      rw [hfail] at hu
      cases hu

/-- Claim C10: in any store whose chatroom `cid` exists but has a
membership row whose userid matches no `User` row, `Chatroom` construction
fails with `UserNotFound`, not `ChatroomNotFound`: the eager hydration of
the member/owner lists constructs a `User` object per membership row, and
the dangling row's construction raises. -/
theorem c10_chatroom_load_dangling_member (s : Store) (cid : Nat)
    (hc : ∃ cr ∈ s.chatrooms, cr.chatroomid = cid)
    (hd : ∃ r ∈ s.members, r.chatroomid = cid ∧ ∀ u ∈ s.users, u.userid ≠ r.userid) :
    Chatroom_load s cid = Except.error PyErr.userNotFound := by
  obtain ⟨r, hr, hrcid, hnouser⟩ := hd
  have hfail : User_load s r.userid = Except.error PyErr.userNotFound := by
    unfold User_load
    rw [List.find?_eq_none.mpr (fun u hu => by simp [hnouser u hu])]
  have hsome : (s.chatrooms.find? (fun c => c.chatroomid == cid)).isSome := by
    obtain ⟨cr, hcr, hcrid⟩ := hc
    exact List.find?_isSome.mpr ⟨cr, hcr, by simp [hcrid]⟩
  unfold Chatroom_load
  cases hfc : s.chatrooms.find? (fun c => c.chatroomid == cid) with
  | none => rw [hfc] at hsome; cases hsome
  | some cr0 =>
      by_cases how : r.owner
      · have hmem : r ∈ s.members.filter (fun q => q.chatroomid == cid && q.owner) :=
          List.mem_filter.mpr ⟨hr, by simp [hrcid, how]⟩
        rw [load_member_users_fails hmem hfail]
      · have how' : r.owner = false := Bool.eq_false_iff.mpr how
        have hmem : r ∈ s.members.filter (fun q => q.chatroomid == cid && !q.owner) :=
          List.mem_filter.mpr ⟨hr, by simp [hrcid, how']⟩
        cases hlo : load_member_users s
            (s.members.filter (fun q => q.chatroomid == cid && q.owner)) with
        | error e =>
            have he : e = PyErr.userNotFound := load_member_users_error_eq hlo
            subst he
            rfl
        | ok us =>
            rw [load_member_users_fails hmem hfail]

/-- Witness for C10 at `danglingStore`: loading existing chatroom 1 fails
with `UserNotFound` because membership row `(1, 7)` references no user. -/
theorem c10_chatroom_load_witness :
    Chatroom_load danglingStore 1 = Except.error PyErr.userNotFound :=
  c10_chatroom_load_dangling_member danglingStore 1
    (by exact ⟨⟨1, "TestRoom1", "A test chatroom"⟩, by simp [danglingStore], rfl⟩)
    (by
      refine ⟨⟨1, 7, false⟩, by simp [danglingStore], rfl, ?_⟩
      intro u hu
      simp [danglingStore] at hu
      rw [hu]
      decide)
